import Mathlib

/-!
Shallow embedding of the `timer-cli` stopwatch (Rust sources `src/lib.rs`,
`src/main.rs`) and proofs about its specification.

Modelling conventions:
* `std::time::Instant` is a monotone clock reading, modelled as a `Nat`
  (nanoseconds since an arbitrary epoch).  Each place where the Rust code
  calls `Instant::now()` the Lean function takes an explicit `now : Nat`
  argument.
* `std::time::Duration` is a `Nat` of nanoseconds; `Duration::as_millis`
  is division by 1 000 000 (truncating, like the Rust original).
  `Instant::elapsed` is saturating subtraction, matching Rust's saturating
  `Instant` subtraction and Lean's `Nat` subtraction.
* Mutating methods returning `Result<(), TimerError>` become functions
  `Timer → ... → Except TimerError Unit × Timer`, always returning the
  resulting state (unchanged on the error path, exactly as the Rust early
  returns leave `&mut self` untouched).
-/

/-- `TimerErrorKind` from `src/lib.rs`. -/
inductive TimerErrorKind where
  | AlreadyRunning
  | NotRunning
  | Invalid
deriving DecidableEq, Repr

/-- `TimerError` from `src/lib.rs` (a newtype around the kind). -/
structure TimerError where
  kind : TimerErrorKind
deriving DecidableEq, Repr

deriving instance DecidableEq for Except

/-- `Lap` record from `src/lib.rs`: 1-based index, offset in truncated
milliseconds since the engine's logical zero, optional label. -/
structure Lap where
  index : Nat
  at_ms : Nat
  label : Option String
deriving DecidableEq, Repr

/-- `Timer` struct from `src/lib.rs`.  `start_time` is the optional origin
instant (ns), `elapsed` the accumulated duration (ns), `running` the flag,
`laps` the lap log in insertion order. -/
structure Timer where
  start_time : Option Nat
  elapsed : Nat
  running : Bool
  laps : List Lap
deriving DecidableEq, Repr

namespace Timer

/-- `Timer::new`. -/
def new : Timer :=
  { start_time := none, elapsed := 0, running := false, laps := [] }

/-- `Timer::start`: fails with `AlreadyRunning` if running, otherwise
records the origin instant and raises the flag. -/
def start (t : Timer) (now : Nat) : Except TimerError Unit × Timer :=
  if t.running then
    (Except.error ⟨TimerErrorKind.AlreadyRunning⟩, t)
  else
    (Except.ok (), { t with start_time := some now, running := true })

/-- `Timer::stop`: fails with `NotRunning` if stopped; otherwise takes the
origin (`if let Some(start) = self.start_time.take()`), folds the running
slice into `elapsed`, and clears the flag. -/
def stop (t : Timer) (now : Nat) : Except TimerError Unit × Timer :=
  if !t.running then
    (Except.error ⟨TimerErrorKind.NotRunning⟩, t)
  else
    match t.start_time with
    | some origin =>
        (Except.ok (),
          { t with start_time := none, elapsed := t.elapsed + (now - origin),
                   running := false })
    | none =>
        (Except.ok (), { t with start_time := none, running := false })

/-- `Timer::reset`: unconditionally back to the initial state. -/
def reset (_t : Timer) : Timer :=
  { start_time := none, elapsed := 0, running := false, laps := [] }

/-- `Timer::elapsed` (the query; named `elapsedAt` because the struct field
`elapsed` keeps its Rust name): accumulated time plus the current running
slice, if any. -/
def elapsedAt (t : Timer) (now : Nat) : Nat :=
  if t.running then
    match t.start_time with
    | some origin => t.elapsed + (now - origin)
    | none => t.elapsed
  else t.elapsed

/-- `Timer::lap`: fails with `NotRunning` when stopped; otherwise appends
one record with `index = laps.len() + 1` and
`at_ms = elapsed().as_millis()`. -/
def lap (t : Timer) (label : Option String) (now : Nat) :
    Except TimerError Unit × Timer :=
  if !t.running then
    (Except.error ⟨TimerErrorKind.NotRunning⟩, t)
  else
    let idx := t.laps.length + 1
    let atMs := t.elapsedAt now / 1000000
    (Except.ok (), { t with laps := t.laps ++ [⟨idx, atMs, label⟩] })

end Timer

/-- Rust's `{:0w}` integer formatting: decimal digits, left-padded with
zeros to width `w`, widening beyond `w` when the number needs more digits. -/
def padZeros (w : Nat) (n : Nat) : String :=
  let s := toString n
  if s.length < w then String.mk (List.replicate (w - s.length) '0') ++ s
  else s

/-- `format_duration` from `src/lib.rs`: `HH:MM:SS.mmm` over the truncated
total milliseconds of a duration given in nanoseconds. -/
def format_duration (ns : Nat) : String :=
  let ms := ns / 1000000
  let h := ms / 3600000
  let m := (ms % 3600000) / 60000
  let s := (ms % 60000) / 1000
  let mm := ms % 1000
  padZeros 2 h ++ ":" ++ padZeros 2 m ++ ":" ++ padZeros 2 s ++ "." ++ padZeros 3 mm

/-!
CLI layer from `src/main.rs`.  Console output and external serializers
(`serde_json`, `csv`) are boundary collaborators: an `OutEvent` records
each observable output action together with the exact data the code hands
to it.  The external world for `measure` is an oracle
`env : List String → Option Nat` giving, for a command line, `none` when
the process fails to launch and `some code` for the exit status the Rust
code would pass to `std::process::exit` (`status.code().unwrap_or(1)`).
-/

/-- Observable output action of the CLI layer. -/
inductive OutEvent where
  | line (s : String)
  | lapsTable (laps : List Lap)
  | jsonExport (laps : List Lap)
  | csvExport (laps : List Lap)
  | watchSession
  | helpText
  | versionText
deriving DecidableEq, Repr

/-- Result of one `dispatch` call: normal return with its output events,
an error, or a process exit raised inside `measure_command`. -/
inductive DispatchResult where
  | ok (events : List OutEvent)
  | err (e : TimerError)
  | exited (code : Nat)
deriving DecidableEq, Repr

/-- Helper for `splitWhitespace`: walk the characters, accumulating the
current token (reversed); whitespace ends a token, empty pieces are
dropped. -/
def splitWhitespaceGo : List Char → List Char → List String
  | [], acc => if acc.isEmpty then [] else [String.mk acc.reverse]
  | c :: cs, acc =>
    if c.isWhitespace then
      if acc.isEmpty then splitWhitespaceGo cs []
      else String.mk acc.reverse :: splitWhitespaceGo cs []
    else splitWhitespaceGo cs (c :: acc)

/-- Rust `str::split_whitespace`: split on whitespace, dropping empty
pieces. -/
def splitWhitespace (s : String) : List String :=
  splitWhitespaceGo s.data []

/-- `export_laps` from `src/main.rs`: `json` pretty-prints the lap list,
`csv` writes header and rows, anything else is `Invalid`. -/
def export_laps (t : Timer) (fmt : String) :
    Except TimerError (List OutEvent) :=
  if fmt = "json" then Except.ok [OutEvent.jsonExport t.laps]
  else if fmt = "csv" then Except.ok [OutEvent.csvExport t.laps]
  else Except.error ⟨TimerErrorKind.Invalid⟩

/-- `print_laps` from `src/main.rs`: `(no laps)` when empty, else the
table rendering of the lap list. -/
def print_laps (t : Timer) : List OutEvent :=
  if t.laps.isEmpty then [OutEvent.line "(no laps)"]
  else [OutEvent.lapsTable t.laps]

/-- `run_watch` from `src/main.rs`, engine-state effect only: it issues
`let _ = t.start()` (ignoring `AlreadyRunning`) and then only reads
`elapsed()` in its render loop, never mutating the engine again. -/
def run_watch (t : Timer) (now : Nat) : List OutEvent × Timer :=
  ([OutEvent.watchSession], (t.start now).2)

/-- `measure_command` from `src/main.rs`: `Invalid` on an empty command
line or a launch failure; otherwise the fresh local timer runs the child
to completion and the process exits with the child's effective status. -/
def measure_command (cmdline : List String)
    (env : List String → Option Nat) : DispatchResult :=
  if cmdline.isEmpty then DispatchResult.err ⟨TimerErrorKind.Invalid⟩
  else
    match env cmdline with
    | none => DispatchResult.err ⟨TimerErrorKind.Invalid⟩
    | some code => DispatchResult.exited code

/-- `dispatch` from `src/main.rs`: split the input into whitespace
tokens, match on the first (empty input behaves like the empty token),
route to the engine or the boundary helpers.  `now` is the clock reading
for whichever engine operation this call performs. -/
def dispatch (t : Timer) (input : String) (now : Nat)
    (env : List String → Option Nat) : DispatchResult × Timer :=
  let parts := splitWhitespace input
  let cmd := parts.headD ""
  let rest := parts.tail
  if cmd = "start" then
    match t.start now with
    | (Except.ok _, t2) => (DispatchResult.ok [], t2)
    | (Except.error e, t2) => (DispatchResult.err e, t2)
  else if cmd = "stop" then
    match t.stop now with
    | (Except.ok _, t2) => (DispatchResult.ok [], t2)
    | (Except.error e, t2) => (DispatchResult.err e, t2)
  else if cmd = "reset" then (DispatchResult.ok [], t.reset)
  else if cmd = "elapsed" then
    (DispatchResult.ok [OutEvent.line (format_duration (t.elapsedAt now))], t)
  else if cmd = "watch" then
    let (ev, t2) := run_watch t now
    (DispatchResult.ok ev, t2)
  else if cmd = "lap" then
    let label := rest.head?
    match t.lap label now with
    | (Except.ok _, t2) => (DispatchResult.ok [], t2)
    | (Except.error e, t2) => (DispatchResult.err e, t2)
  else if cmd = "laps" then (DispatchResult.ok (print_laps t), t)
  else if cmd = "export" then
    let fmt := rest.headD "json"
    match export_laps t fmt with
    | Except.ok ev => (DispatchResult.ok ev, t)
    | Except.error e => (DispatchResult.err e, t)
  else if cmd = "measure" then (measure_command rest env, t)
  else if cmd = "-h" ∨ cmd = "--help" then (DispatchResult.ok [OutEvent.helpText], t)
  else if cmd = "-V" ∨ cmd = "--version" then (DispatchResult.ok [OutEvent.versionText], t)
  else (DispatchResult.err ⟨TimerErrorKind.Invalid⟩, t)

/-- Body of `run_batch`'s loop: execute the commands (each paired with the
clock instant at which it runs) in sequence on the threaded timer state;
the first dispatch error stops execution with exit code 1, a process exit
raised inside `measure` yields that code, and exhausting the list yields
exit code 0. -/
def runCmds (env : List String → Option Nat) :
    Timer → List (String × Nat) → Nat
  | _, [] => 0
  | t, (cmd, now) :: restCmds =>
    match dispatch t cmd now env with
    | (DispatchResult.ok _, t2) => runCmds env t2 restCmds
    | (DispatchResult.err _, _) => 1
    | (DispatchResult.exited code, _) => code

/-- `run_batch` from `src/main.rs`: exit code 2 on an empty command list,
otherwise run the commands on a fresh timer. -/
def run_batch (cmds : List (String × Nat))
    (env : List String → Option Nat) : Nat :=
  if cmds.isEmpty then 2
  else runCmds env Timer.new cmds

/-- The spec's data-model invariant: `origin.is_some() == running`. -/
def OriginInv (t : Timer) : Prop :=
  t.start_time.isSome = t.running

/-- The spec's lap-index property: the indices of the lap log are exactly
`1, 2, 3, …` in order. -/
def LapsIndexed (l : List Lap) : Prop :=
  l.map Lap.index = List.range' 1 l.length

/-- Spec-side rendering of the `HH:MM:SS.mmm` format, written from the
spec's field formulas over the total milliseconds `ms`, to be compared
with `format_duration`. -/
def hhmmss_mmm (ms : Nat) : String :=
  padZeros 2 (ms / 3600000) ++ ":" ++ padZeros 2 ((ms % 3600000) / 60000) ++
    ":" ++ padZeros 2 ((ms % 60000) / 1000) ++ "." ++ padZeros 3 (ms % 1000)

/-- Sequential success of a batch: every command dispatches to `Ok`,
threading the timer state. -/
inductive SeqOk (env : List String → Option Nat) : Timer → List (String × Nat) → Prop where
  | nil (t : Timer) : SeqOk env t []
  | cons {t t2 : Timer} {cmd : String} {now : Nat} {rest : List (String × Nat)}
      (ev : List OutEvent)
      (hd : dispatch t cmd now env = (DispatchResult.ok ev, t2))
      (tl : SeqOk env t2 rest) : SeqOk env t ((cmd, now) :: rest)

/-- Sequential failure of a batch: running the commands in order, some
command dispatches to an error (the first such; everything before it
dispatched to `Ok`). -/
inductive SeqFails (env : List String → Option Nat) : Timer → List (String × Nat) → Prop where
  | here {t t2 : Timer} {cmd : String} {now : Nat} {rest : List (String × Nat)}
      {e : TimerError}
      (hd : dispatch t cmd now env = (DispatchResult.err e, t2)) :
      SeqFails env t ((cmd, now) :: rest)
  | there {t t2 : Timer} {cmd : String} {now : Nat} {rest : List (String × Nat)}
      (ev : List OutEvent)
      (hd : dispatch t cmd now env = (DispatchResult.ok ev, t2))
      (tl : SeqFails env t2 rest) : SeqFails env t ((cmd, now) :: rest)

/-- The engine states of the spec scenario
`new → start → lap("a") → lap("b") → stop`, with `t1 ≤ t2 ≤ t3 ≤ t4` the
clock instants of the four clocked operations. -/
def scen1 (t1 : Nat) : Timer := (Timer.new.start t1).2

/-- Second scenario state: after `lap("a")` at instant `t2`. -/
def scen2 (t1 t2 : Nat) : Timer := ((scen1 t1).lap (some "a") t2).2

/-- Third scenario state: after `lap("b")` at instant `t3`. -/
def scen3 (t1 t2 t3 : Nat) : Timer := ((scen2 t1 t2).lap (some "b") t3).2

/-- Final scenario state: after `stop` at instant `t4`. -/
def scen4 (t1 t2 t3 t4 : Nat) : Timer := ((scen3 t1 t2 t3).stop t4).2

/-- Lap log extends by exactly one correctly-indexed record: helper for
the lap-index invariant. -/
theorem lapsIndexed_concat (l : List Lap) (a : Nat) (lab : Option String)
    (h : LapsIndexed l) :
    LapsIndexed (l ++ [⟨l.length + 1, a, lab⟩]) := by
  unfold LapsIndexed at h ⊢
  simp [List.range'_concat, h, Nat.add_comm]

/-- C1: `start()` while running fails with `AlreadyRunning`; `stop()` and
`lap(label)` while not running fail with `NotRunning`; in each failing
case the returned state is exactly the input state (no partial
mutation). -/
theorem failing_ops_leave_state_unchanged (t : Timer) (now : Nat)
    (label : Option String) :
    (t.running = true →
      t.start now = (Except.error ⟨TimerErrorKind.AlreadyRunning⟩, t)) ∧
    (t.running = false →
      t.stop now = (Except.error ⟨TimerErrorKind.NotRunning⟩, t) ∧
      t.lap label now = (Except.error ⟨TimerErrorKind.NotRunning⟩, t)) := by
  refine ⟨fun h => ?_, fun h => ⟨?_, ?_⟩⟩ <;>
    simp [Timer.start, Timer.stop, Timer.lap, h]

/-- C1 witness: concrete failing calls, state returned untouched. -/
theorem failing_ops_leave_state_unchanged_witness :
    (Timer.mk (some 5) 7 true []).start 9 =
      (Except.error ⟨TimerErrorKind.AlreadyRunning⟩, Timer.mk (some 5) 7 true []) ∧
    Timer.new.stop 3 = (Except.error ⟨TimerErrorKind.NotRunning⟩, Timer.new) ∧
    Timer.new.lap (some "x") 3 =
      (Except.error ⟨TimerErrorKind.NotRunning⟩, Timer.new) :=
  ⟨(failing_ops_leave_state_unchanged (Timer.mk (some 5) 7 true []) 9 (some "x")).1 rfl,
   ((failing_ops_leave_state_unchanged Timer.new 3 (some "x")).2 rfl).1,
   ((failing_ops_leave_state_unchanged Timer.new 3 (some "x")).2 rfl).2⟩

/-- C2 counterexample: after `start` at instant 5, querying `elapsed()` at
the same instant 5 (a legal monotone clock reading) gives
`elapsed() = accumulated` while `running = true`, refuting
`elapsed() > accumulated whenever running`. -/
theorem elapsed_eq_accumulated_while_running :
    (Timer.new.start 5).2.running = true ∧
    (Timer.new.start 5).2.elapsedAt 5 = (Timer.new.start 5).2.elapsed := by
  decide

/-- C2 amended: `elapsed() ≥ accumulated` always; equality whenever not
running; and while running (origin present) the inequality is strict as
soon as the query instant is strictly later than the origin. -/
theorem elapsed_ge_accumulated (t : Timer) (now : Nat) :
    t.elapsed ≤ t.elapsedAt now ∧
    (t.running = false → t.elapsedAt now = t.elapsed) ∧
    (∀ origin, t.running = true → t.start_time = some origin →
      origin < now → t.elapsed < t.elapsedAt now) := by
  unfold Timer.elapsedAt
  refine ⟨?_, fun h => by simp [h], fun origin h1 h2 h3 => ?_⟩
  · cases hr : t.running
    · simp
    · cases hs : t.start_time <;> simp
  · simp [h1, h2]
    omega

/-- C2 amended witness: start at 5, query at 7: strictly positive running
slice. -/
theorem elapsed_ge_accumulated_witness :
    (Timer.new.start 5).2.elapsed < (Timer.new.start 5).2.elapsedAt 7 :=
  (elapsed_ge_accumulated (Timer.new.start 5).2 7).2.2 5 rfl rfl (by decide)

/-- C3: `origin.is_some() == running` holds for the fresh engine and is
preserved by `start`, `stop`, `reset` and `lap`, on both their success
and failure paths (`elapsed` does not touch the state). -/
theorem origin_iff_running_invariant (t : Timer) (now : Nat)
    (label : Option String) :
    OriginInv Timer.new ∧
    (OriginInv t →
      OriginInv (t.start now).2 ∧ OriginInv (t.stop now).2 ∧
      OriginInv t.reset ∧ OriginInv (t.lap label now).2) := by
  constructor
  · simp [OriginInv, Timer.new]
  · intro h
    unfold OriginInv Timer.start Timer.stop Timer.reset Timer.lap at *
    cases hr : t.running <;> cases hs : t.start_time <;> simp_all

/-- C3 witness: the invariant after a concrete `start`. -/
theorem origin_iff_running_invariant_witness :
    OriginInv (Timer.new.start 4).2 ∧ OriginInv ((Timer.new.start 4).2.stop 6).2 :=
  ⟨((origin_iff_running_invariant Timer.new 4 none).2 rfl).1,
   ((origin_iff_running_invariant (Timer.new.start 4).2 6 none).2 rfl).2.1⟩

/-- C4: lap indices are exactly `1, 2, 3, …` in call order: the fresh log
satisfies it; `start` and `stop` never touch the log; `reset` is the only
operation that clears it; a successful `lap` appends exactly one record
with `index = laps.len() + 1` and alters no existing record; a failed
`lap` leaves the log unchanged; the indexing property is preserved by
`lap` for any label. -/
theorem lap_indices_sequential (t : Timer) (now : Nat) (label : Option String) :
    LapsIndexed Timer.new.laps ∧
    (t.start now).2.laps = t.laps ∧
    (t.stop now).2.laps = t.laps ∧
    t.reset.laps = [] ∧
    (t.running = true → (t.lap label now).2.laps =
      t.laps ++ [⟨t.laps.length + 1, t.elapsedAt now / 1000000, label⟩]) ∧
    (t.running = false → (t.lap label now).2.laps = t.laps) ∧
    (LapsIndexed t.laps → LapsIndexed (t.lap label now).2.laps) := by
  refine ⟨by simp [LapsIndexed, Timer.new], ?_, ?_, rfl, fun h => ?_, fun h => ?_, fun h => ?_⟩
  · unfold Timer.start; cases hr : t.running <;> simp
  · unfold Timer.stop; cases hr : t.running <;> cases hs : t.start_time <;> simp
  · simp [Timer.lap, h]
  · simp [Timer.lap, h]
  · unfold Timer.lap
    cases hr : t.running
    · simpa using h
    · simpa using lapsIndexed_concat t.laps (t.elapsedAt now / 1000000) label h

/-- C4 witness: two concrete laps carry indices 1 and 2. -/
theorem lap_indices_sequential_witness :
    ((Timer.mk (some 0) 0 true []).lap (some "a") 2000000).2.laps =
      [⟨1, 2, some "a"⟩] ∧
    LapsIndexed ((Timer.mk (some 0) 0 true [⟨1, 0, none⟩]).lap (some "b") 2000000).2.laps :=
  ⟨by simpa using
      (lap_indices_sequential (Timer.mk (some 0) 0 true []) 2000000 (some "a")).2.2.2.2.1 rfl,
   (lap_indices_sequential (Timer.mk (some 0) 0 true [⟨1, 0, none⟩]) 2000000
      (some "b")).2.2.2.2.2.2 rfl⟩

/-- C5: `reset()` from any state (it cannot fail: it returns no result)
yields exactly the freshly-constructed engine: zero `elapsed()` at every
query instant, not running, origin cleared, empty lap log. -/
theorem reset_restores_initial_state (t : Timer) (now : Nat) :
    t.reset = Timer.new ∧ t.reset.elapsedAt now = 0 ∧
    t.reset.running = false ∧ t.reset.start_time = none ∧
    t.reset.laps = [] := by
  simp [Timer.reset, Timer.new, Timer.elapsedAt]

/-- C6 counterexample: running the scenario with start at instant 0 and
the two laps 0.1 ms and 0.4 ms later (all operations succeeding, strictly
later in time), both lap records carry `offset_ms = 0`: truncation to
whole milliseconds defeats strict increase. -/
theorem scenario_offsets_can_tie :
    (Timer.new.start 0).1 = Except.ok () ∧
    ((scen1 0).lap (some "a") 100000).1 = Except.ok () ∧
    ((scen2 0 100000).lap (some "b") 400000).1 = Except.ok () ∧
    ((scen3 0 100000 400000).stop 1000000).1 = Except.ok () ∧
    (scen4 0 100000 400000 1000000).laps.map Lap.at_ms = [0, 0] := by
  decide

/-- C6 amended: for every execution of
`new → start → lap("a") → lap("b") → stop → elapsed` with monotone clock
instants, all operations succeed, the engine holds exactly the two lap
records in order, their `offset_ms` values are non-decreasing (strictly
increasing exactly when the laps fall in distinct whole milliseconds),
and the final `elapsed()` in whole milliseconds is ≥ the second lap's
`offset_ms`. -/
theorem scenario_two_laps (t1 t2 t3 t4 : Nat)
    (h12 : t1 ≤ t2) (h23 : t2 ≤ t3) (h34 : t3 ≤ t4) :
    (Timer.new.start t1).1 = Except.ok () ∧
    ((scen1 t1).lap (some "a") t2).1 = Except.ok () ∧
    ((scen2 t1 t2).lap (some "b") t3).1 = Except.ok () ∧
    ((scen3 t1 t2 t3).stop t4).1 = Except.ok () ∧
    (scen4 t1 t2 t3 t4).laps.map Lap.at_ms =
      [(t2 - t1) / 1000000, (t3 - t1) / 1000000] ∧
    (t2 - t1) / 1000000 ≤ (t3 - t1) / 1000000 ∧
    (t3 - t1) / 1000000 ≤ (scen4 t1 t2 t3 t4).elapsedAt t4 / 1000000 := by
  have e2 : (t2 - t1) / 1000000 ≤ (t3 - t1) / 1000000 :=
    Nat.div_le_div_right (Nat.sub_le_sub_right h23 t1)
  have e3 : (t3 - t1) / 1000000 ≤ (t4 - t1) / 1000000 :=
    Nat.div_le_div_right (Nat.sub_le_sub_right h34 t1)
  refine ⟨rfl, ?_, ?_, ?_, ?_, e2, ?_⟩ <;>
    simp [scen1, scen2, scen3, scen4, Timer.new, Timer.start, Timer.lap,
      Timer.stop, Timer.elapsedAt, e3]

/-- C6 amended witness: instants 0, 1 ms, 2 ms, 3 ms give laps at 1 and 2
milliseconds and final elapsed 3 ms. -/
theorem scenario_two_laps_witness :
    (scen4 0 1000000 2000000 3000000).laps.map Lap.at_ms = [1, 2] ∧
    2 ≤ (scen4 0 1000000 2000000 3000000).elapsedAt 3000000 / 1000000 := by
  have h := scenario_two_laps 0 1000000 2000000 3000000
    (by decide) (by decide) (by decide)
  exact ⟨by simpa using h.2.2.2.2.1, by simpa using h.2.2.2.2.2.2⟩

/-- C7: `format_duration` renders exactly the spec's zero-padded
`HH:MM:SS.mmm` field formulas over the truncated total milliseconds, and
the three round-trip examples hold. -/
theorem format_duration_spec (ns : Nat) :
    format_duration ns = hhmmss_mmm (ns / 1000000) ∧
    format_duration 1000000 = "00:00:00.001" ∧
    format_duration 10000000 = "00:00:00.010" ∧
    format_duration 3661234000000 = "01:01:01.234" :=
  ⟨rfl, by decide, by decide, by decide⟩

/-- C8 counterexample: `-h` is a first token outside the nine-command
vocabulary, yet the dispatcher accepts it (help text) instead of
returning `Invalid`. -/
theorem dispatch_accepts_help_flag :
    dispatch Timer.new "-h" 0 (fun _ => none) =
      (DispatchResult.ok [OutEvent.helpText], Timer.new) := by
  decide

/-- C8 amended: the dispatcher accepts the command vocabulary `start`,
`stop`, `reset`, `elapsed`, `watch`, `lap`, `laps`, `export`, `measure`
plus the help/version flags `-h`, `--help`, `-V`, `--version`; for every
engine state, dispatching any other first token returns the `Invalid`
error and leaves the engine unchanged. -/
theorem dispatch_rejects_unknown_tokens (t : Timer) (input : String)
    (now : Nat) (env : List String → Option Nat)
    (h : ¬ (splitWhitespace input).headD "" ∈
      (["start", "stop", "reset", "elapsed", "watch", "lap", "laps",
        "export", "measure", "-h", "--help", "-V", "--version"] : List String)) :
    dispatch t input now env = (DispatchResult.err ⟨TimerErrorKind.Invalid⟩, t) := by
  simp only [List.mem_cons, List.not_mem_nil, or_false, not_or] at h
  obtain ⟨h1, h2, h3, h4, h5, h6, h7, h8, h9, h10, h11, h12, h13⟩ := h
  simp only [dispatch]
  rw [if_neg h1, if_neg h2, if_neg h3, if_neg h4, if_neg h5, if_neg h6,
    if_neg h7, if_neg h8, if_neg h9, if_neg (not_or.mpr ⟨h10, h11⟩),
    if_neg (not_or.mpr ⟨h12, h13⟩)]

/-- C8 amended witness: an unrecognized token at a concrete state. -/
theorem dispatch_rejects_unknown_tokens_witness :
    dispatch Timer.new "frobnicate" 0 (fun _ => none) =
      (DispatchResult.err ⟨TimerErrorKind.Invalid⟩, Timer.new) :=
  dispatch_rejects_unknown_tokens Timer.new "frobnicate" 0 (fun _ => none)
    (by decide)

/-- Sequentially `Ok` batches exit with code 0: helper for the batch
exit-code contract. -/
theorem runCmds_eq_zero_of_seqOk {env : List String → Option Nat}
    {t : Timer} {cmds : List (String × Nat)} (h : SeqOk env t cmds) :
    runCmds env t cmds = 0 := by
  induction h with
  | nil t => rfl
  | cons ev hd tl ih => simp [runCmds, hd, ih]

/-- Batches whose execution reaches a failing command exit with code 1:
helper for the batch exit-code contract. -/
theorem runCmds_eq_one_of_seqFails {env : List String → Option Nat}
    {t : Timer} {cmds : List (String × Nat)} (h : SeqFails env t cmds) :
    runCmds env t cmds = 1 := by
  induction h with
  | here hd => simp [runCmds, hd]
  | there ev hd tl ih => simp [runCmds, hd, ih]

/-- C9: batch mode exits with code 2 on zero commands (nothing executed),
code 0 when every command dispatches successfully, and code 1 as soon as
the sequential execution reaches a failing command (later commands are
never consulted). -/
theorem batch_exit_codes (env : List String → Option Nat)
    (cmds : List (String × Nat)) :
    run_batch [] env = 2 ∧
    (cmds ≠ [] → SeqOk env Timer.new cmds → run_batch cmds env = 0) ∧
    (SeqFails env Timer.new cmds → run_batch cmds env = 1) := by
  refine ⟨rfl, fun hne hok => ?_, fun hf => ?_⟩
  · unfold run_batch
    rw [if_neg (by simpa using hne)]
    exact runCmds_eq_zero_of_seqOk hok
  · have hne : cmds ≠ [] := by cases hf <;> simp
    unfold run_batch
    rw [if_neg (by simpa using hne)]
    exact runCmds_eq_one_of_seqFails hf

/-- C9 witness: an empty batch, an all-successful batch, and a batch with
an unknown command, each with its exit code. -/
theorem batch_exit_codes_witness :
    run_batch [] (fun _ => none) = 2 ∧
    run_batch [("start", 0), ("stop", 5)] (fun _ => none) = 0 ∧
    run_batch [("bogus", 0)] (fun _ => none) = 1 := by
  have hs : dispatch Timer.new "start" 0 (fun _ => none) =
      (DispatchResult.ok [], Timer.mk (some 0) 0 true []) := by decide
  have ht : dispatch (Timer.mk (some 0) 0 true []) "stop" 5 (fun _ => none) =
      (DispatchResult.ok [], Timer.mk none 5 false []) := by decide
  have hb : dispatch Timer.new "bogus" 0 (fun _ => none) =
      (DispatchResult.err ⟨TimerErrorKind.Invalid⟩, Timer.new) := by decide
  have h := batch_exit_codes (fun _ => none) [("start", 0), ("stop", 5)]
  have h2 := batch_exit_codes (fun _ => none) [("bogus", 0)]
  exact ⟨h.1,
    h.2.1 (by decide) (SeqOk.cons [] hs (SeqOk.cons [] ht (SeqOk.nil _))),
    h2.2.2 (SeqFails.here hb)⟩

/-- C10: dispatching the bare token `export` defaults the format to
`json` and succeeds, serializing the lap log; only an explicit format
other than `json` or `csv` makes `export_laps` fail with `Invalid`. -/
theorem export_defaults_to_json (t : Timer) (now : Nat)
    (env : List String → Option Nat) :
    dispatch t "export" now env =
      (DispatchResult.ok [OutEvent.jsonExport t.laps], t) ∧
    (∀ fmt : String, fmt ≠ "json" → fmt ≠ "csv" →
      export_laps t fmt = Except.error ⟨TimerErrorKind.Invalid⟩) := by
  constructor
  · have hs : splitWhitespace "export" = ["export"] := by decide
    simp [dispatch, hs, export_laps]
  · intro fmt h1 h2
    simp [export_laps, h1, h2]

/-- C10 witness: bare `export` on a fresh engine, and a rejected `xml`
format. -/
theorem export_defaults_to_json_witness :
    dispatch Timer.new "export" 0 (fun _ => none) =
      (DispatchResult.ok [OutEvent.jsonExport []], Timer.new) ∧
    export_laps Timer.new "xml" = Except.error ⟨TimerErrorKind.Invalid⟩ :=
  ⟨(export_defaults_to_json Timer.new 0 (fun _ => none)).1,
   (export_defaults_to_json Timer.new 0 (fun _ => none)).2 "xml"
     (by decide) (by decide)⟩
